import Mathlib

/-!
Verification of the creatinine-clearance calculator (Cockcroft-Gault tool).

The embedding models the Python source `src/main.py` over exact rationals:
float arithmetic is idealized as ℚ, and Python's built-in `round`
(round-half-to-even on the value) is modelled by `rhte` below.
-/

/-- Unit system enum, from the `unit_system` Literal field of the input schema. -/
inductive UnitSystem where
  | metric
  | imperial
  deriving DecidableEq, Repr

/-- Sex enum, from the `sex` Literal field of the input schema. -/
inductive Sex where
  | male
  | female
  deriving DecidableEq, Repr

/-- Input schema `CrClFormInput` of `src/main.py`. -/
structure CrClFormInput where
  unit_system : UnitSystem
  weight : ℚ
  height : ℚ
  age : ℤ
  serum_creatinine : ℚ
  sex : Sex
  deriving DecidableEq, Repr

/-- Output schema `CrClFormOutput` of `src/main.py`: three formatted strings. -/
structure CrClFormOutput where
  original_crcl : String
  modified_crcl : String
  crcl_range : String
  deriving DecidableEq, Repr

/-- The validation constraints declared on the input schema fields:
`weight > 0`, `height > 0`, `age ≥ 18`, `serum_creatinine > 0`. -/
def Valid (i : CrClFormInput) : Prop :=
  0 < i.weight ∧ 0 < i.height ∧ 18 ≤ i.age ∧ 0 < i.serum_creatinine

instance (i : CrClFormInput) : Decidable (Valid i) := by
  unfold Valid; infer_instance

/-- Python's built-in `round` to an integer, modelled exactly on ℚ:
round half to even (banker's rounding). -/
def rhte (q : ℚ) : ℤ :=
  if q - ⌊q⌋ < 1/2 then ⌊q⌋
  else if 1/2 < q - ⌊q⌋ then ⌊q⌋ + 1
  else if ⌊q⌋ % 2 = 0 then ⌊q⌋ else ⌊q⌋ + 1

/-- Unit normalization of the weight, `src/main.py` lines 106-110:
imperial weight is in lbs and is multiplied by 0.453592; metric weight
is already in kg. -/
def weight_in_kg (i : CrClFormInput) : ℚ :=
  match i.unit_system with
  | UnitSystem.imperial => i.weight * 0.453592
  | UnitSystem.metric => i.weight

/-- Unit normalization of the height, `src/main.py` lines 106-111:
imperial height is already in inches; metric height is in cm and is
divided by 2.54. -/
def height_in_inches (i : CrClFormInput) : ℚ :=
  match i.unit_system with
  | UnitSystem.imperial => i.height
  | UnitSystem.metric => i.height / 2.54

/-- Ideal Body Weight, function `calculate_ibw` of `src/main.py`. -/
def calculate_ibw (h : ℚ) (sex : Sex) : ℚ :=
  match sex with
  | Sex.male => 50 + 2.3 * (h - 60)
  | Sex.female => 45.5 + 2.3 * (h - 60)

/-- IBW of an input: `calculate_ibw(height_in_inches, data.sex)`. -/
def ibw (i : CrClFormInput) : ℚ :=
  calculate_ibw (height_in_inches i) i.sex

/-- Adjusted Body Weight, `src/main.py` lines 117-120. -/
def abw (i : CrClFormInput) : ℚ :=
  if weight_in_kg i > ibw i then ibw i + 0.4 * (weight_in_kg i - ibw i)
  else weight_in_kg i

/-- Sex factor, `src/main.py` line 123: 0.85 for female else 1.0. -/
def sex_factor (s : Sex) : ℚ :=
  match s with
  | Sex.female => 0.85
  | Sex.male => 1

/-- Original Cockcroft-Gault value before rounding, `src/main.py` lines 126-128. -/
def original_crcl_raw (i : CrClFormInput) : ℚ :=
  (140 - (i.age : ℚ)) * weight_in_kg i * sex_factor i.sex / (72 * i.serum_creatinine)

/-- Modified Cockcroft-Gault value (using ABW) before rounding, lines 131-133. -/
def modified_crcl_raw (i : CrClFormInput) : ℚ :=
  (140 - (i.age : ℚ)) * abw i * sex_factor i.sex / (72 * i.serum_creatinine)

/-- Cockcroft-Gault value using IBW before rounding, lines 136-138. -/
def crcl_using_ibw_raw (i : CrClFormInput) : ℚ :=
  (140 - (i.age : ℚ)) * ibw i * sex_factor i.sex / (72 * i.serum_creatinine)

/-- Rounded original CrCl, line 141. -/
def original_crcl_val (i : CrClFormInput) : ℤ :=
  rhte (original_crcl_raw i)

/-- Rounded modified CrCl, line 142. -/
def modified_crcl_val (i : CrClFormInput) : ℤ :=
  rhte (modified_crcl_raw i)

/-- Rounded IBW-based CrCl, line 143. -/
def crcl_using_ibw_val (i : CrClFormInput) : ℤ :=
  rhte (crcl_using_ibw_raw i)

/-- Python `f-string` rendering of an integer with format `:.1f`:
one decimal place, always `.0` for an integer value. -/
def fmt1 (n : ℤ) : String :=
  toString n ++ ".0"

/-- Python rendering of a 1-decimal value given as a count of tenths
(the result of `round(x, 1)` displayed by an f-string). -/
def fmtTenths (k : ℤ) : String :=
  if k < 0 then "-" ++ toString ((-k) / 10) ++ "." ++ toString ((-k) % 10)
  else toString (k / 10) ++ "." ++ toString (k % 10)

/-- The endpoint body `calculate_crcl` of `src/main.py`, lines 94-152,
on already-validated input. -/
def calculate_crcl (i : CrClFormInput) : CrClFormOutput :=
  let o := original_crcl_val i
  let m := modified_crcl_val i
  let c := crcl_using_ibw_val i
  let range_inner := fmt1 (min c m) ++ "-" ++ fmt1 (max c m) ++ " mL/min"
  { original_crcl :=
      toString o ++ " mL/min\nCreatinine clearance, original Cockcroft-Gault"
    modified_crcl :=
      toString m ++
        " mL/min\nCreatinine clearance modified for overweight patient, using adjusted body weight of " ++
        fmtTenths (rhte (10 * abw i)) ++ " kg (" ++
        fmtTenths (rhte (10 * (abw i / 0.453592))) ++ " lbs)."
    crcl_range := range_inner ++ " mL/min" }

/-- Guarded division: fails when the divisor is zero (a Python
`ZeroDivisionError`). -/
def div? (a b : ℚ) : Option ℚ :=
  if b = 0 then none else some (a / b)

/-- Fallible rendering of `calculate_crcl`: every division of the source is
guarded, so the result is `none` exactly when some division would raise. -/
def calculate_crcl? (i : CrClFormInput) : Option CrClFormOutput := do
  let wkg ← match i.unit_system with
    | UnitSystem.imperial => some (i.weight * 0.453592)
    | UnitSystem.metric => some i.weight
  let hin ← match i.unit_system with
    | UnitSystem.imperial => some i.height
    | UnitSystem.metric => div? i.height 2.54
  let ib := calculate_ibw hin i.sex
  let ab := if wkg > ib then ib + 0.4 * (wkg - ib) else wkg
  let sf := sex_factor i.sex
  let oc ← div? ((140 - (i.age : ℚ)) * wkg * sf) (72 * i.serum_creatinine)
  let mc ← div? ((140 - (i.age : ℚ)) * ab * sf) (72 * i.serum_creatinine)
  let ic ← div? ((140 - (i.age : ℚ)) * ib * sf) (72 * i.serum_creatinine)
  let abLb ← div? ab 0.453592
  let o := rhte oc
  let m := rhte mc
  let c := rhte ic
  let range_inner := fmt1 (min c m) ++ "-" ++ fmt1 (max c m) ++ " mL/min"
  pure
    { original_crcl :=
        toString o ++ " mL/min\nCreatinine clearance, original Cockcroft-Gault"
      modified_crcl :=
        toString m ++
          " mL/min\nCreatinine clearance modified for overweight patient, using adjusted body weight of " ++
          fmtTenths (rhte (10 * ab)) ++ " kg (" ++
          fmtTenths (rhte (10 * abLb)) ++ " lbs)."
      crcl_range := range_inner ++ " mL/min" }

/-- Modelled from the spec: the pydantic `unit_system` field declares
`default="metric"`, so a request omitting the field parses to `metric`
instead of being rejected; present values must be one of the two literals. -/
def parse_unit_system (s : Option String) : Option UnitSystem :=
  match s with
  | none => some UnitSystem.metric
  | some "metric" => some UnitSystem.metric
  | some "imperial" => some UnitSystem.imperial
  | some _ => none

/-! ### Properties of the rounding model -/

/-- `rhte` returns either the floor or the floor plus one. -/
lemma rhte_cases (q : ℚ) : rhte q = ⌊q⌋ ∨ rhte q = ⌊q⌋ + 1 := by
  unfold rhte; split_ifs <;> simp

lemma floor_le_rhte (q : ℚ) : ⌊q⌋ ≤ rhte q := by
  rcases rhte_cases q with h | h <;> omega

lemma rhte_le_floor_add_one (q : ℚ) : rhte q ≤ ⌊q⌋ + 1 := by
  rcases rhte_cases q with h | h <;> omega

/-- Round-half-to-even is monotone. -/
lemma rhte_mono {q r : ℚ} (h : q ≤ r) : rhte q ≤ rhte r := by
  by_cases hf : ⌊q⌋ = ⌊r⌋
  · unfold rhte
    rw [hf]
    split_ifs <;> first | omega | (exfalso; linarith)
  · have h1 : ⌊q⌋ ≤ ⌊r⌋ := Int.floor_le_floor h
    have h2 := rhte_le_floor_add_one q
    have h3 := floor_le_rhte r
    omega

/-- `rhte q` is within one half of `q`: it is a nearest integer. -/
lemma rhte_nearest (q : ℚ) : |q - (rhte q : ℚ)| ≤ 1/2 := by
  have hfl := Int.floor_le q
  have hfu := Int.lt_floor_add_one q
  unfold rhte
  split_ifs <;> rw [abs_le] <;> constructor <;> push_cast <;> linarith

/-- At an exact half, `rhte` picks the even neighbour. -/
lemma rhte_tie {q : ℚ} (h : q - ⌊q⌋ = 1/2) : rhte q % 2 = 0 := by
  unfold rhte
  split_ifs with h1 h2 h3
  · exfalso; linarith
  · exfalso; linarith
  · exact h3
  · omega

/-- Evaluation of `rhte` away from a tie: any `q` strictly within one half
of the integer `n` rounds to `n`. -/
lemma rhte_eq_of_near (n : ℤ) (q : ℚ) (h1 : (n : ℚ) - 1/2 < q)
    (h2 : q < (n : ℚ) + 1/2) : rhte q = n := by
  have hl : n - 1 ≤ ⌊q⌋ := by
    apply Int.le_floor.mpr
    push_cast
    linarith
  have hu : ⌊q⌋ < n + 1 := by
    apply Int.floor_lt.mpr
    push_cast
    linarith
  have hfl := Int.floor_le q
  have hfu := Int.lt_floor_add_one q
  have hq : ⌊q⌋ = n ∨ ⌊q⌋ = n - 1 := by omega
  rcases hq with hcase | hcase <;> unfold rhte <;> rw [hcase] <;>
    split_ifs <;> first | rfl | omega | (exfalso; push_cast at *; linarith)

example : rhte (12/5) = 2 := by
  apply rhte_eq_of_near <;> norm_num
example : rhte (-250/3) = -83 := by
  apply rhte_eq_of_near <;> norm_num
example : height_in_inches ⟨UnitSystem.metric, 100, 152.4, 45, 1, Sex.male⟩ = 60 := by
  norm_num [height_in_inches]

/-! ### Claim theorems -/

/-- C1: for every validated input the three clearance values share the
multiplier (140 − age) × sex_factor / (72 × serum_creatinine), with
original using weight_kg, modified using ABW, the IBW variant using IBW,
and the same sex factor (0.85 female, 1.0 male) in all three. -/
theorem crcl_shared_multiplier (i : CrClFormInput) (_hv : Valid i) :
    original_crcl_raw i =
      weight_in_kg i * ((140 - (i.age : ℚ)) * sex_factor i.sex / (72 * i.serum_creatinine))
    ∧ modified_crcl_raw i =
      abw i * ((140 - (i.age : ℚ)) * sex_factor i.sex / (72 * i.serum_creatinine))
    ∧ crcl_using_ibw_raw i =
      ibw i * ((140 - (i.age : ℚ)) * sex_factor i.sex / (72 * i.serum_creatinine))
    ∧ sex_factor Sex.female = 0.85 ∧ sex_factor Sex.male = 1 := by
  refine ⟨?_, ?_, ?_, rfl, rfl⟩ <;>
    simp only [original_crcl_raw, modified_crcl_raw, crcl_using_ibw_raw] <;> ring

/-- Witness for C1 at a concrete validated input. -/
theorem crcl_shared_multiplier_witness :
    Valid ⟨UnitSystem.metric, 70, 170, 45, 1.1, Sex.male⟩
    ∧ (original_crcl_raw ⟨UnitSystem.metric, 70, 170, 45, 1.1, Sex.male⟩ =
        weight_in_kg ⟨UnitSystem.metric, 70, 170, 45, 1.1, Sex.male⟩ *
          ((140 - ((⟨UnitSystem.metric, 70, 170, 45, 1.1, Sex.male⟩ : CrClFormInput).age : ℚ)) *
            sex_factor (⟨UnitSystem.metric, 70, 170, 45, 1.1, Sex.male⟩ : CrClFormInput).sex /
            (72 * (⟨UnitSystem.metric, 70, 170, 45, 1.1, Sex.male⟩ : CrClFormInput).serum_creatinine))
      ∧ modified_crcl_raw ⟨UnitSystem.metric, 70, 170, 45, 1.1, Sex.male⟩ =
        abw ⟨UnitSystem.metric, 70, 170, 45, 1.1, Sex.male⟩ *
          ((140 - ((⟨UnitSystem.metric, 70, 170, 45, 1.1, Sex.male⟩ : CrClFormInput).age : ℚ)) *
            sex_factor (⟨UnitSystem.metric, 70, 170, 45, 1.1, Sex.male⟩ : CrClFormInput).sex /
            (72 * (⟨UnitSystem.metric, 70, 170, 45, 1.1, Sex.male⟩ : CrClFormInput).serum_creatinine))
      ∧ crcl_using_ibw_raw ⟨UnitSystem.metric, 70, 170, 45, 1.1, Sex.male⟩ =
        ibw ⟨UnitSystem.metric, 70, 170, 45, 1.1, Sex.male⟩ *
          ((140 - ((⟨UnitSystem.metric, 70, 170, 45, 1.1, Sex.male⟩ : CrClFormInput).age : ℚ)) *
            sex_factor (⟨UnitSystem.metric, 70, 170, 45, 1.1, Sex.male⟩ : CrClFormInput).sex /
            (72 * (⟨UnitSystem.metric, 70, 170, 45, 1.1, Sex.male⟩ : CrClFormInput).serum_creatinine))
      ∧ sex_factor Sex.female = 0.85 ∧ sex_factor Sex.male = 1) :=
  ⟨by norm_num [Valid], crcl_shared_multiplier _ (by norm_num [Valid])⟩

/-- C2: unit normalization — imperial multiplies the weight by 0.453592 and
keeps the height; metric keeps the weight and divides the height by 2.54
(an exact division, as witnessed by multiplying back). -/
theorem unit_normalization (i : CrClFormInput) :
    (i.unit_system = UnitSystem.imperial →
      weight_in_kg i = i.weight * 0.453592 ∧ height_in_inches i = i.height)
    ∧ (i.unit_system = UnitSystem.metric →
      weight_in_kg i = i.weight ∧ height_in_inches i = i.height / 2.54
        ∧ height_in_inches i * 2.54 = i.height) := by
  constructor <;> intro h <;> unfold weight_in_kg height_in_inches <;> rw [h]
  · exact ⟨rfl, rfl⟩
  · refine ⟨rfl, rfl, ?_⟩
    rw [div_mul_cancel₀]
    norm_num

/-- Witness for C2 at one imperial and one metric input. -/
theorem unit_normalization_witness :
    (weight_in_kg ⟨UnitSystem.imperial, 110, 64, 30, 0.9, Sex.female⟩ =
        (⟨UnitSystem.imperial, 110, 64, 30, 0.9, Sex.female⟩ : CrClFormInput).weight * 0.453592
      ∧ height_in_inches ⟨UnitSystem.imperial, 110, 64, 30, 0.9, Sex.female⟩ =
        (⟨UnitSystem.imperial, 110, 64, 30, 0.9, Sex.female⟩ : CrClFormInput).height)
    ∧ (weight_in_kg ⟨UnitSystem.metric, 70, 170, 45, 1.1, Sex.male⟩ =
        (⟨UnitSystem.metric, 70, 170, 45, 1.1, Sex.male⟩ : CrClFormInput).weight
      ∧ height_in_inches ⟨UnitSystem.metric, 70, 170, 45, 1.1, Sex.male⟩ =
        (⟨UnitSystem.metric, 70, 170, 45, 1.1, Sex.male⟩ : CrClFormInput).height / 2.54
      ∧ height_in_inches ⟨UnitSystem.metric, 70, 170, 45, 1.1, Sex.male⟩ * 2.54 =
        (⟨UnitSystem.metric, 70, 170, 45, 1.1, Sex.male⟩ : CrClFormInput).height) :=
  ⟨(unit_normalization ⟨UnitSystem.imperial, 110, 64, 30, 0.9, Sex.female⟩).1 rfl,
   (unit_normalization ⟨UnitSystem.metric, 70, 170, 45, 1.1, Sex.male⟩).2 rfl⟩

/-- C3: the ABW branch — above IBW the weight is adjusted by 40 percent of
the excess, otherwise the actual weight is used unchanged. -/
theorem abw_adjustment (i : CrClFormInput) :
    (weight_in_kg i > ibw i → abw i = ibw i + 0.4 * (weight_in_kg i - ibw i))
    ∧ (weight_in_kg i ≤ ibw i → abw i = weight_in_kg i) := by
  constructor <;> intro h <;> unfold abw
  · rw [if_pos h]
  · rw [if_neg (not_lt.mpr h)]

/-- Witness for C3: one overweight input and one non-overweight input. -/
theorem abw_adjustment_witness :
    (weight_in_kg ⟨UnitSystem.metric, 70, 170, 45, 1.1, Sex.male⟩ >
        ibw ⟨UnitSystem.metric, 70, 170, 45, 1.1, Sex.male⟩
      ∧ abw ⟨UnitSystem.metric, 70, 170, 45, 1.1, Sex.male⟩ =
        ibw ⟨UnitSystem.metric, 70, 170, 45, 1.1, Sex.male⟩ +
          0.4 * (weight_in_kg ⟨UnitSystem.metric, 70, 170, 45, 1.1, Sex.male⟩ -
            ibw ⟨UnitSystem.metric, 70, 170, 45, 1.1, Sex.male⟩))
    ∧ (weight_in_kg ⟨UnitSystem.imperial, 110, 64, 30, 0.9, Sex.female⟩ ≤
        ibw ⟨UnitSystem.imperial, 110, 64, 30, 0.9, Sex.female⟩
      ∧ abw ⟨UnitSystem.imperial, 110, 64, 30, 0.9, Sex.female⟩ =
        weight_in_kg ⟨UnitSystem.imperial, 110, 64, 30, 0.9, Sex.female⟩) :=
  ⟨⟨by norm_num [weight_in_kg, ibw, height_in_inches, calculate_ibw],
    (abw_adjustment ⟨UnitSystem.metric, 70, 170, 45, 1.1, Sex.male⟩).1
      (by norm_num [weight_in_kg, ibw, height_in_inches, calculate_ibw])⟩,
   ⟨by norm_num [weight_in_kg, ibw, height_in_inches, calculate_ibw],
    (abw_adjustment ⟨UnitSystem.imperial, 110, 64, 30, 0.9, Sex.female⟩).2
      (by norm_num [weight_in_kg, ibw, height_in_inches, calculate_ibw])⟩⟩

/-- C4: the IBW formulas for both sexes exactly as in the source, with no
floor at zero: a validated very-short input yields a negative IBW which
flows as-is into a negative IBW-based clearance. -/
theorem ibw_formula_no_floor :
    (∀ h : ℚ, calculate_ibw h Sex.male = 50 + 2.3 * (h - 60))
    ∧ (∀ h : ℚ, calculate_ibw h Sex.female = 45.5 + 2.3 * (h - 60))
    ∧ calculate_ibw 30 Sex.male < 0
    ∧ ibw ⟨UnitSystem.metric, 10, 76.2, 18, 1, Sex.male⟩ < 0
    ∧ Valid ⟨UnitSystem.metric, 10, 76.2, 18, 1, Sex.male⟩
    ∧ crcl_using_ibw_val ⟨UnitSystem.metric, 10, 76.2, 18, 1, Sex.male⟩ < 0 := by
  have hraw : crcl_using_ibw_raw ⟨UnitSystem.metric, 10, 76.2, 18, 1, Sex.male⟩ = -1159/36 := by
    norm_num [crcl_using_ibw_raw, ibw, height_in_inches, calculate_ibw, sex_factor]
  have hval : crcl_using_ibw_val ⟨UnitSystem.metric, 10, 76.2, 18, 1, Sex.male⟩ = -32 := by
    unfold crcl_using_ibw_val
    rw [hraw]
    apply rhte_eq_of_near <;> norm_num
  refine ⟨fun h => rfl, fun h => rfl, by norm_num [calculate_ibw], ?_, by norm_num [Valid], ?_⟩
  · norm_num [ibw, height_in_inches, calculate_ibw]
  · rw [hval]
    decide

/-- C7: the IBW-based clearance is independent of the patient's weight —
two inputs agreeing on height, sex, age, serum creatinine and unit system
give the same value whatever their weights. -/
theorem crcl_using_ibw_weight_independent (i j : CrClFormInput)
    (hh : i.height = j.height) (hs : i.sex = j.sex) (ha : i.age = j.age)
    (hc : i.serum_creatinine = j.serum_creatinine)
    (hu : i.unit_system = j.unit_system) :
    crcl_using_ibw_val i = crcl_using_ibw_val j := by
  have h1 : height_in_inches i = height_in_inches j := by
    unfold height_in_inches
    rw [hh, hu]
  have h2 : ibw i = ibw j := by
    unfold ibw
    rw [h1, hs]
  unfold crcl_using_ibw_val crcl_using_ibw_raw
  rw [h2, hs, ha, hc]

/-- Witness for C7: two concrete inputs differing only in weight. -/
theorem crcl_using_ibw_weight_independent_witness :
    crcl_using_ibw_val ⟨UnitSystem.metric, 70, 170, 45, 1.1, Sex.male⟩ =
      crcl_using_ibw_val ⟨UnitSystem.metric, 120, 170, 45, 1.1, Sex.male⟩ :=
  crcl_using_ibw_weight_independent _ _ rfl rfl rfl rfl rfl

/-- C5: the range output is exactly the two rounded integers rendered with
one decimal place, joined by a dash, followed by a doubled unit suffix;
the low end is the minimum and the high end the maximum of the IBW-based
and modified values, so low ≤ high always holds. -/
theorem crcl_range_format (i : CrClFormInput) (_hv : Valid i) :
    (calculate_crcl i).crcl_range =
      fmt1 (min (crcl_using_ibw_val i) (modified_crcl_val i)) ++ "-" ++
        fmt1 (max (crcl_using_ibw_val i) (modified_crcl_val i)) ++ " mL/min mL/min"
    ∧ min (crcl_using_ibw_val i) (modified_crcl_val i) ≤
        max (crcl_using_ibw_val i) (modified_crcl_val i)
    ∧ fmt1 62 = "62.0" := by
  refine ⟨?_, min_le_max, rfl⟩
  show (fmt1 (min (crcl_using_ibw_val i) (modified_crcl_val i)) ++ "-" ++
      fmt1 (max (crcl_using_ibw_val i) (modified_crcl_val i)) ++ " mL/min") ++ " mL/min" = _
  rw [String.append_assoc]
  rfl

/-- Witness for C5 at a concrete validated input. -/
theorem crcl_range_format_witness :
    Valid ⟨UnitSystem.metric, 70, 170, 45, 1.1, Sex.male⟩
    ∧ ((calculate_crcl ⟨UnitSystem.metric, 70, 170, 45, 1.1, Sex.male⟩).crcl_range =
      fmt1 (min (crcl_using_ibw_val ⟨UnitSystem.metric, 70, 170, 45, 1.1, Sex.male⟩)
          (modified_crcl_val ⟨UnitSystem.metric, 70, 170, 45, 1.1, Sex.male⟩)) ++ "-" ++
        fmt1 (max (crcl_using_ibw_val ⟨UnitSystem.metric, 70, 170, 45, 1.1, Sex.male⟩)
          (modified_crcl_val ⟨UnitSystem.metric, 70, 170, 45, 1.1, Sex.male⟩)) ++ " mL/min mL/min"
    ∧ min (crcl_using_ibw_val ⟨UnitSystem.metric, 70, 170, 45, 1.1, Sex.male⟩)
        (modified_crcl_val ⟨UnitSystem.metric, 70, 170, 45, 1.1, Sex.male⟩) ≤
      max (crcl_using_ibw_val ⟨UnitSystem.metric, 70, 170, 45, 1.1, Sex.male⟩)
        (modified_crcl_val ⟨UnitSystem.metric, 70, 170, 45, 1.1, Sex.male⟩)
    ∧ fmt1 62 = "62.0") :=
  ⟨by norm_num [Valid], crcl_range_format _ (by norm_num [Valid])⟩

/-- C6 (amended): for validated input with age at most 140, the modified
clearance is at most the original one when the patient is overweight, and
equals it exactly otherwise; the age bound is needed because for age above
140 the shared multiplier is negative and the inequality reverses. -/
theorem modified_vs_original (i : CrClFormInput) (hv : Valid i) :
    (weight_in_kg i > ibw i → i.age ≤ 140 →
      modified_crcl_val i ≤ original_crcl_val i)
    ∧ (weight_in_kg i ≤ ibw i → modified_crcl_val i = original_crcl_val i) := by
  obtain ⟨hw, hh, ha, hc⟩ := hv
  constructor
  · intro hgt hage
    apply rhte_mono
    have habw : abw i ≤ weight_in_kg i := by
      unfold abw
      rw [if_pos hgt]
      linarith
    have hsf : 0 < sex_factor i.sex := by
      unfold sex_factor
      cases i.sex <;> norm_num
    have hage' : (0 : ℚ) ≤ 140 - (i.age : ℚ) := by
      have hq : (i.age : ℚ) ≤ 140 := by exact_mod_cast hage
      linarith
    have hden : (0 : ℚ) < 72 * i.serum_creatinine := mul_pos (by norm_num) hc
    unfold modified_crcl_raw original_crcl_raw
    rw [div_le_div_iff_of_pos_right hden]
    exact mul_le_mul_of_nonneg_right
      (mul_le_mul_of_nonneg_left habw hage') hsf.le
  · intro hle
    have habw : abw i = weight_in_kg i := by
      unfold abw
      rw [if_neg (not_lt.mpr hle)]
    unfold modified_crcl_val original_crcl_val modified_crcl_raw original_crcl_raw
    rw [habw]

/-- Counterexample to C6 as stated: a validated overweight input with age
200 (validation only requires age ≥ 18) makes the multiplier negative, so
the modified clearance exceeds the original one. -/
theorem modified_vs_original_counterexample :
    Valid ⟨UnitSystem.metric, 100, 152.4, 200, 1, Sex.male⟩
    ∧ weight_in_kg ⟨UnitSystem.metric, 100, 152.4, 200, 1, Sex.male⟩ >
        ibw ⟨UnitSystem.metric, 100, 152.4, 200, 1, Sex.male⟩
    ∧ ¬ modified_crcl_val ⟨UnitSystem.metric, 100, 152.4, 200, 1, Sex.male⟩ ≤
        original_crcl_val ⟨UnitSystem.metric, 100, 152.4, 200, 1, Sex.male⟩
    ∧ ¬ modified_crcl_raw ⟨UnitSystem.metric, 100, 152.4, 200, 1, Sex.male⟩ ≤
        original_crcl_raw ⟨UnitSystem.metric, 100, 152.4, 200, 1, Sex.male⟩ := by
  have hw : weight_in_kg ⟨UnitSystem.metric, 100, 152.4, 200, 1, Sex.male⟩ = 100 := rfl
  have hibw : ibw ⟨UnitSystem.metric, 100, 152.4, 200, 1, Sex.male⟩ = 50 := by
    norm_num [ibw, height_in_inches, calculate_ibw]
  have habw : abw ⟨UnitSystem.metric, 100, 152.4, 200, 1, Sex.male⟩ = 70 := by
    unfold abw
    rw [hw, hibw, if_pos (by norm_num)]
    norm_num
  have hmraw : modified_crcl_raw ⟨UnitSystem.metric, 100, 152.4, 200, 1, Sex.male⟩ = -175/3 := by
    unfold modified_crcl_raw
    rw [habw]
    norm_num [sex_factor]
  have horaw : original_crcl_raw ⟨UnitSystem.metric, 100, 152.4, 200, 1, Sex.male⟩ = -250/3 := by
    unfold original_crcl_raw
    rw [hw]
    norm_num [sex_factor]
  have hm : modified_crcl_val ⟨UnitSystem.metric, 100, 152.4, 200, 1, Sex.male⟩ = -58 := by
    unfold modified_crcl_val
    rw [hmraw]
    apply rhte_eq_of_near <;> norm_num
  have ho : original_crcl_val ⟨UnitSystem.metric, 100, 152.4, 200, 1, Sex.male⟩ = -83 := by
    unfold original_crcl_val
    rw [horaw]
    apply rhte_eq_of_near <;> norm_num
  refine ⟨by norm_num [Valid], by rw [hw, hibw]; norm_num, ?_, ?_⟩
  · rw [hm, ho]
    decide
  · rw [hmraw, horaw]
    norm_num

/-- Witness for the amended C6 at a concrete overweight input of age 45
and at a concrete non-overweight input. -/
theorem modified_vs_original_witness :
    (Valid ⟨UnitSystem.metric, 100, 152.4, 45, 1, Sex.male⟩
      ∧ weight_in_kg ⟨UnitSystem.metric, 100, 152.4, 45, 1, Sex.male⟩ >
          ibw ⟨UnitSystem.metric, 100, 152.4, 45, 1, Sex.male⟩
      ∧ (⟨UnitSystem.metric, 100, 152.4, 45, 1, Sex.male⟩ : CrClFormInput).age ≤ 140
      ∧ modified_crcl_val ⟨UnitSystem.metric, 100, 152.4, 45, 1, Sex.male⟩ ≤
          original_crcl_val ⟨UnitSystem.metric, 100, 152.4, 45, 1, Sex.male⟩)
    ∧ (weight_in_kg ⟨UnitSystem.imperial, 110, 64, 30, 0.9, Sex.female⟩ ≤
          ibw ⟨UnitSystem.imperial, 110, 64, 30, 0.9, Sex.female⟩
      ∧ modified_crcl_val ⟨UnitSystem.imperial, 110, 64, 30, 0.9, Sex.female⟩ =
          original_crcl_val ⟨UnitSystem.imperial, 110, 64, 30, 0.9, Sex.female⟩) :=
  ⟨⟨by norm_num [Valid],
    by norm_num [weight_in_kg, ibw, height_in_inches, calculate_ibw],
    by norm_num,
    (modified_vs_original ⟨UnitSystem.metric, 100, 152.4, 45, 1, Sex.male⟩
        (by norm_num [Valid])).1
      (by norm_num [weight_in_kg, ibw, height_in_inches, calculate_ibw])
      (by norm_num)⟩,
   ⟨by norm_num [weight_in_kg, ibw, height_in_inches, calculate_ibw],
    (modified_vs_original ⟨UnitSystem.imperial, 110, 64, 30, 0.9, Sex.female⟩
        (by norm_num [Valid])).2
      (by norm_num [weight_in_kg, ibw, height_in_inches, calculate_ibw])⟩⟩

/-- C10: an omitted unit_system field parses to the metric default instead
of being rejected, and under metric the weight is taken as kilograms
unchanged while the height is taken as centimeters and divided by 2.54. -/
theorem default_unit_system :
    parse_unit_system none = some UnitSystem.metric
    ∧ (∀ w h a s sx, weight_in_kg ⟨UnitSystem.metric, w, h, a, s, sx⟩ = w
      ∧ height_in_inches ⟨UnitSystem.metric, w, h, a, s, sx⟩ = h / 2.54) :=
  ⟨rfl, fun _ _ _ _ _ => ⟨rfl, rfl⟩⟩

/-- C8: each clearance value is the raw value rounded to a nearest integer
with ties going to the even neighbour (Python's round-half-to-even), and
the modified output string displays the ABW and its pound conversion each
rounded to one decimal place (within one twentieth of the exact value). -/
theorem rounding_behaviour (i : CrClFormInput) (_hv : Valid i) :
    (original_crcl_val i = rhte (original_crcl_raw i)
      ∧ |original_crcl_raw i - (original_crcl_val i : ℚ)| ≤ 1/2
      ∧ (original_crcl_raw i - ⌊original_crcl_raw i⌋ = 1/2 → original_crcl_val i % 2 = 0))
    ∧ (modified_crcl_val i = rhte (modified_crcl_raw i)
      ∧ |modified_crcl_raw i - (modified_crcl_val i : ℚ)| ≤ 1/2
      ∧ (modified_crcl_raw i - ⌊modified_crcl_raw i⌋ = 1/2 → modified_crcl_val i % 2 = 0))
    ∧ (crcl_using_ibw_val i = rhte (crcl_using_ibw_raw i)
      ∧ |crcl_using_ibw_raw i - (crcl_using_ibw_val i : ℚ)| ≤ 1/2
      ∧ (crcl_using_ibw_raw i - ⌊crcl_using_ibw_raw i⌋ = 1/2 → crcl_using_ibw_val i % 2 = 0))
    ∧ (calculate_crcl i).modified_crcl =
        toString (modified_crcl_val i) ++
          " mL/min\nCreatinine clearance modified for overweight patient, using adjusted body weight of " ++
          fmtTenths (rhte (10 * abw i)) ++ " kg (" ++
          fmtTenths (rhte (10 * (abw i / 0.453592))) ++ " lbs)."
    ∧ |abw i - (rhte (10 * abw i) : ℚ) / 10| ≤ 1/20
    ∧ |abw i / 0.453592 - (rhte (10 * (abw i / 0.453592)) : ℚ) / 10| ≤ 1/20 := by
  have habw := rhte_nearest (10 * abw i)
  have habwlb := rhte_nearest (10 * (abw i / 0.453592))
  rw [abs_le] at habw habwlb
  refine ⟨⟨rfl, rhte_nearest _, fun h => rhte_tie h⟩,
    ⟨rfl, rhte_nearest _, fun h => rhte_tie h⟩,
    ⟨rfl, rhte_nearest _, fun h => rhte_tie h⟩, rfl, ?_, ?_⟩ <;>
    rw [abs_le] <;> constructor <;> linarith

/-- Witness for C8 at a concrete validated input. -/
theorem rounding_behaviour_witness :
    Valid ⟨UnitSystem.metric, 70, 170, 45, 1.1, Sex.male⟩
    ∧ ((original_crcl_val ⟨UnitSystem.metric, 70, 170, 45, 1.1, Sex.male⟩ =
          rhte (original_crcl_raw ⟨UnitSystem.metric, 70, 170, 45, 1.1, Sex.male⟩)
        ∧ |original_crcl_raw ⟨UnitSystem.metric, 70, 170, 45, 1.1, Sex.male⟩ -
            (original_crcl_val ⟨UnitSystem.metric, 70, 170, 45, 1.1, Sex.male⟩ : ℚ)| ≤ 1/2
        ∧ (original_crcl_raw ⟨UnitSystem.metric, 70, 170, 45, 1.1, Sex.male⟩ -
            ⌊original_crcl_raw ⟨UnitSystem.metric, 70, 170, 45, 1.1, Sex.male⟩⌋ = 1/2 →
            original_crcl_val ⟨UnitSystem.metric, 70, 170, 45, 1.1, Sex.male⟩ % 2 = 0))
      ∧ (modified_crcl_val ⟨UnitSystem.metric, 70, 170, 45, 1.1, Sex.male⟩ =
          rhte (modified_crcl_raw ⟨UnitSystem.metric, 70, 170, 45, 1.1, Sex.male⟩)
        ∧ |modified_crcl_raw ⟨UnitSystem.metric, 70, 170, 45, 1.1, Sex.male⟩ -
            (modified_crcl_val ⟨UnitSystem.metric, 70, 170, 45, 1.1, Sex.male⟩ : ℚ)| ≤ 1/2
        ∧ (modified_crcl_raw ⟨UnitSystem.metric, 70, 170, 45, 1.1, Sex.male⟩ -
            ⌊modified_crcl_raw ⟨UnitSystem.metric, 70, 170, 45, 1.1, Sex.male⟩⌋ = 1/2 →
            modified_crcl_val ⟨UnitSystem.metric, 70, 170, 45, 1.1, Sex.male⟩ % 2 = 0))
      ∧ (crcl_using_ibw_val ⟨UnitSystem.metric, 70, 170, 45, 1.1, Sex.male⟩ =
          rhte (crcl_using_ibw_raw ⟨UnitSystem.metric, 70, 170, 45, 1.1, Sex.male⟩)
        ∧ |crcl_using_ibw_raw ⟨UnitSystem.metric, 70, 170, 45, 1.1, Sex.male⟩ -
            (crcl_using_ibw_val ⟨UnitSystem.metric, 70, 170, 45, 1.1, Sex.male⟩ : ℚ)| ≤ 1/2
        ∧ (crcl_using_ibw_raw ⟨UnitSystem.metric, 70, 170, 45, 1.1, Sex.male⟩ -
            ⌊crcl_using_ibw_raw ⟨UnitSystem.metric, 70, 170, 45, 1.1, Sex.male⟩⌋ = 1/2 →
            crcl_using_ibw_val ⟨UnitSystem.metric, 70, 170, 45, 1.1, Sex.male⟩ % 2 = 0))
      ∧ (calculate_crcl ⟨UnitSystem.metric, 70, 170, 45, 1.1, Sex.male⟩).modified_crcl =
          toString (modified_crcl_val ⟨UnitSystem.metric, 70, 170, 45, 1.1, Sex.male⟩) ++
            " mL/min\nCreatinine clearance modified for overweight patient, using adjusted body weight of " ++
            fmtTenths (rhte (10 * abw ⟨UnitSystem.metric, 70, 170, 45, 1.1, Sex.male⟩)) ++ " kg (" ++
            fmtTenths (rhte (10 * (abw ⟨UnitSystem.metric, 70, 170, 45, 1.1, Sex.male⟩ / 0.453592))) ++ " lbs)."
      ∧ |abw ⟨UnitSystem.metric, 70, 170, 45, 1.1, Sex.male⟩ -
          (rhte (10 * abw ⟨UnitSystem.metric, 70, 170, 45, 1.1, Sex.male⟩) : ℚ) / 10| ≤ 1/20
      ∧ |abw ⟨UnitSystem.metric, 70, 170, 45, 1.1, Sex.male⟩ / 0.453592 -
          (rhte (10 * (abw ⟨UnitSystem.metric, 70, 170, 45, 1.1, Sex.male⟩ / 0.453592)) : ℚ) / 10| ≤ 1/20) :=
  ⟨by norm_num [Valid], rounding_behaviour _ (by norm_num [Valid])⟩

/-- C9: on validated input the guarded computation succeeds — no division
can fail since the clearance divisor 72 × serum_creatinine is nonzero under
strict positivity (and the fixed unit-conversion divisors are nonzero) —
and it agrees with the total model of the endpoint. -/
theorem calculation_total (i : CrClFormInput) (hv : Valid i) :
    calculate_crcl? i = some (calculate_crcl i) := by
  obtain ⟨us, w, h, a, s, sx⟩ := i
  obtain ⟨hw, hh, ha, hc⟩ := hv
  have h72 : (72 : ℚ) * s ≠ 0 := ne_of_gt (mul_pos (by norm_num) hc)
  cases us <;>
    norm_num [calculate_crcl?, div?, h72, calculate_crcl, original_crcl_val,
      modified_crcl_val, crcl_using_ibw_val, original_crcl_raw, modified_crcl_raw,
      crcl_using_ibw_raw, weight_in_kg, height_in_inches, ibw, abw]

/-- Witness for C9 at a concrete validated input. -/
theorem calculation_total_witness :
    Valid ⟨UnitSystem.metric, 70, 170, 45, 1.1, Sex.male⟩
    ∧ calculate_crcl? ⟨UnitSystem.metric, 70, 170, 45, 1.1, Sex.male⟩ =
        some (calculate_crcl ⟨UnitSystem.metric, 70, 170, 45, 1.1, Sex.male⟩) :=
  ⟨by norm_num [Valid], calculation_total _ (by norm_num [Valid])⟩
